import Mathlib

/-!
Shallow embedding of the staged market-research pipeline
(`src/pipeline/pipeline.py`), its validators (`src/utils/validation.py`),
the pydantic entity models (`src/utils/models.py`) and the market-data
stage adapter (`src/agents/market_data_agent.py`).

Python values decoded from / encoded to JSON are modelled by `Value`;
Python `None` is `Value.null`.  A Python callable that may raise is
modelled as a function into `Outcome` (`ok` = returned value,
`exn` = raised exception, carrying a message).  JSON numbers are
modelled as rationals; the pipeline and the validators never compute
with them, they only pattern-match on the constructor.
-/

inductive Value where
  | null
  | bool (b : Bool)
  | num  (q : ℚ)
  | str  (s : String)
  | list (xs : List Value)
  | dict (kvs : List (String × Value))

/-- Dictionary key lookup (first binding wins, as Python dict keys are unique). -/
def Value.lookup : Value → String → Option Value
  | .dict kvs, k => kvs.lookup k
  | _, _ => none

/-- Python `key in d`. -/
def Value.hasKey (v : Value) (k : String) : Bool := (v.lookup k).isSome

/-- Python `d.get(key, default)` on a dict value (and the default on lookup miss). -/
def Value.getD (v : Value) (k : String) (d : Value) : Value := (v.lookup k).getD d

/-- Python `x is None`. -/
def Value.isNull : Value → Bool
  | .null => true
  | _ => false

/-- Python `isinstance(x, list)`. -/
def Value.isList : Value → Bool
  | .list _ => true
  | _ => false

/-- Python dict test (used where the source calls a dict-only method such as `.get`). -/
def Value.isDict : Value → Bool
  | .dict _ => true
  | _ => false

/-- Python truthiness of a JSON-decoded value. -/
def Value.truthy : Value → Bool
  | .null => false
  | .bool b => b
  | .num q => q != 0
  | .str s => !s.isEmpty
  | .list xs => !xs.isEmpty
  | .dict kvs => !kvs.isEmpty

/-- Python `type(x).__name__` for JSON-decoded values, as used by the
message `"Expected list but got {type(data).__name__}"`.  The single
numeric constructor is rendered `float` (the embedding does not keep the
int/float distinction). -/
def Value.pyTypeName : Value → String
  | .null => "NoneType"
  | .bool _ => "bool"
  | .num _ => "float"
  | .str _ => "str"
  | .list _ => "list"
  | .dict _ => "dict"

/-- Result of calling a Python function: a returned value or a raised exception. -/
inductive Outcome where
  | ok  (v : Value)
  | exn (msg : String)

/-- Python `seq[0]`: head of a list, first character of a string,
`TypeError`/`KeyError` otherwise (the embedding's dicts have string keys,
so `d[0]` misses).  Mirrors `domains[0]` in `run_linear_pipeline`. -/
def pyIndexZero : Value → Except String Value
  | .list (x :: _) => .ok x
  | .list [] => .error "IndexError: list index out of range"
  | .str s => if s.isEmpty then .error "IndexError: string index out of range"
              else .ok (.str (s.take 1))
  | .dict _ => .error "KeyError: 0"
  | _ => .error "TypeError: object is not subscriptable"

/-- The seven agent callables imported by `src/pipeline/pipeline.py`.
Only the market-data agent's body is present in the repository; the
orchestrator treats all seven as opaque callables, so they are
parameters of the embedding. -/
structure Agents where
  company_research      : Value → Outcome
  industry_analysis     : Value → Outcome
  market_data           : Value → Outcome
  competitive_landscape : Value → Outcome
  market_gap            : Value → Outcome
  opportunity           : Value → Outcome
  report_synthesis      : Value → Outcome

/-- `safe_run` (`pipeline.py` lines 16-35): run the agent inside
`try/except`, normalise a dict output through the `result`/`data`/
`raw_response` key chain, and return `{"result": ...}`.  A raised
exception yields `{"result": None}`; so does a non-dict output, because
the logging line `list(raw_output.keys())` inside the `try` raises
`AttributeError` before the normalisation runs. -/
def safe_run (agent_fn : Value → Outcome) (input_data : Value) : Value :=
  match agent_fn input_data with
  | .exn _ => .dict [("result", .null)]
  | .ok raw_output =>
      match raw_output with
      | .dict kvs =>
          let raw := Value.dict kvs
          if raw.hasKey "result" then .dict [("result", raw.getD "result" .null)]
          else if raw.hasKey "data" then .dict [("result", raw.getD "data" .null)]
          else if raw.hasKey "raw_response" then .dict [("result", raw.getD "raw_response" .null)]
          else .dict [("result", raw)]
      | _ => .dict [("result", .null)]

/-- The failure dict `{"success": False, "error": msg}` returned by the
pipeline's early exits. -/
def mkFail (msg : String) : Value :=
  .dict [("success", .bool false), ("error", .str msg)]

/-- Line 54 of `pipeline.py`: `domain = selected_domain or domains[0]`.
The caller-supplied override (`selected_domain: str = None` in the
source) is `none` when absent; Python's `or` takes the override only
when it is truthy, i.e. a non-empty string, and short-circuits past
`domains[0]` in that case. -/
def select_domain (selected_domain : Option String) (domains : Value) : Except String Value :=
  if (match selected_domain with | none => false | some s => !s.isEmpty) then
    .ok (.str (selected_domain.getD ""))
  else
    pyIndexZero domains

/-- Failure dict of the report-synthesis `except` branch
(`pipeline.py` lines 108-114). -/
def synthFail (details : String) : Value :=
  .dict [("success", .bool false), ("error", .str "Report synthesis failed."),
         ("details", .str details)]

/-- Stage 7 (`pipeline.py` lines 97-114): call
`run_report_synthesis_agent` directly (not through `safe_run`), take
`report_output.get("data", report_output)`, read the three required
fields and `placeholder` with default `True`; any exception inside the
`try` (including `AttributeError`/`KeyError`/`TypeError` from the field
accesses) is converted to the `"Report synthesis failed."` dict. -/
def report_synthesis_step (report_agent : Value → Outcome) (report_input : Value) : Value :=
  match report_agent report_input with
  | .exn e => synthFail e
  | .ok report_output =>
      match report_output with
      | .dict kvs =>
          let final_data := (Value.dict kvs).getD "data" (Value.dict kvs)
          match final_data with
          | .dict fkvs =>
              let fd := Value.dict fkvs
              match fd.lookup "pdf_content" with
              | none => synthFail "KeyError: pdf_content"
              | some pdf =>
                  match fd.lookup "report_title" with
                  | none => synthFail "KeyError: report_title"
                  | some title =>
                      match fd.lookup "generated_at" with
                      | none => synthFail "KeyError: generated_at"
                      | some gen =>
                          .dict [("success", .bool true),
                                 ("pdf_content", pdf),
                                 ("report_title", title),
                                 ("generated_at", gen),
                                 ("placeholder", fd.getD "placeholder" (.bool true))]
          | _ => synthFail "TypeError: indices must be valid for the container"
      | _ => synthFail "AttributeError: object has no attribute get"

/-- Outcome of one pipeline run: the returned dict (or, in `.error`, an
exception escaping `run_linear_pipeline` itself, which the source does
not guard against after stage 2's `.get("domains", [])`), together with
the stages invoked, in order, each with the exact input it was given. -/
structure RunOut where
  result  : Except String Value
  invoked : List (String × Value)

/-- `run_linear_pipeline` (`pipeline.py` lines 38-114), instrumented
with the list of stage invocations.  Transcribed statement by
statement: each stage goes through `safe_run`, the `result` field is
compared to `None`, and there is no schema validation anywhere between
stages. -/
def run_linear_pipeline (ag : Agents) (company_name : String)
    (selected_domain : Option String) : RunOut :=
  let cra_input : Value := .dict [("company", .str company_name)]
  let cra_output := safe_run ag.company_research cra_input
  let inv1 := [("CompanyResearch", cra_input)]
  let company_profile := cra_output.getD "result" .null
  if company_profile.isNull then ⟨.ok (mkFail "Company research failed."), inv1⟩ else
  let ida_output := safe_run ag.industry_analysis company_profile
  let inv2 := inv1 ++ [("IndustryAnalysis", company_profile)]
  let ida_result := ida_output.getD "result" .null
  if ida_result.isNull then ⟨.ok (mkFail "Industry analysis failed."), inv2⟩ else
  if !ida_result.isDict then ⟨.error "AttributeError: object has no attribute get", inv2⟩ else
  let domains := ida_result.getD "domains" (.list [])
  if !domains.truthy then ⟨.ok (mkFail "No domains found."), inv2⟩ else
  match select_domain selected_domain domains with
  | .error e => ⟨.error e, inv2⟩
  | .ok domain =>
  let mda_input : Value := .dict [("domain", domain)]
  let mda_output := safe_run ag.market_data mda_input
  let inv3 := inv2 ++ [("MarketData", mda_input)]
  let market_data := mda_output.getD "result" .null
  if market_data.isNull then ⟨.ok (mkFail "Market data collection failed."), inv3⟩ else
  let cla_input : Value := .dict [("domain", domain)]
  let cla_output := safe_run ag.competitive_landscape cla_input
  let inv4 := inv3 ++ [("CompetitiveLandscape", cla_input)]
  let competitive_data := cla_output.getD "result" .null
  if competitive_data.isNull then
    ⟨.ok (mkFail "Competitive landscape analysis failed."), inv4⟩ else
  let ga_input : Value := .dict [("market_data", market_data),
                                 ("competitive_landscape", competitive_data)]
  let ga_output := safe_run ag.market_gap ga_input
  let inv5 := inv4 ++ [("GapAnalysis", ga_input)]
  let market_gaps := ga_output.getD "result" .null
  if market_gaps.isNull then ⟨.ok (mkFail "Gap analysis failed."), inv5⟩ else
  let oa_output := safe_run ag.opportunity market_gaps
  let inv6 := inv5 ++ [("OpportunityAnalysis", market_gaps)]
  let opportunities := oa_output.getD "result" .null
  if opportunities.isNull then ⟨.ok (mkFail "Opportunity analysis failed."), inv6⟩ else
  let report_input : Value := .dict
    [("company_research_data", company_profile),
     ("domain_research_data", ida_result),
     ("market_research_data", market_data),
     ("competitive_research_data", competitive_data),
     ("gap_analysis_data", market_gaps),
     ("opportunity_research_data", opportunities)]
  let inv7 := inv6 ++ [("ReportSynthesis", report_input)]
  ⟨.ok (report_synthesis_step ag.report_synthesis report_input), inv7⟩

/-!
Validators (`src/utils/validation.py`) over the pydantic models of
`src/utils/models.py`.  A model is its list of declared fields.  The
entity models declare plain `str` / `float` / `List[str]` fields with
no range or enum constraint, so the per-field check is exactly a
constructor check.  `model_validate` collects an error for every bad
field of a record (pydantic reports all field errors of one model at
once); the rendered `str(e)` message is approximated by a
field-by-field concatenation, while `error_details` keeps the
structured `loc`/`msg` pairs that `e.errors()` exposes.
-/

inductive FieldType where
  | string
  | float
  | listString

/-- Pydantic acceptance of a JSON-decoded value at a declared field type. -/
def FieldType.check : FieldType → Value → Bool
  | .string, .str _ => true
  | .float, .num _ => true
  | .listString, .list xs => xs.all fun x => match x with | .str _ => true | _ => false
  | _, _ => false

def FieldType.errMsg : FieldType → String
  | .string => "Input should be a valid string"
  | .float => "Input should be a valid number"
  | .listString => "Input should be a valid list"

/-- A pydantic model, as its declared fields in declaration order. -/
abbrev Model := List (String × FieldType)

/-- `Company` (`models.py` lines 6-12). -/
def Company : Model :=
  [("name", .string), ("industry", .string), ("description", .string),
   ("products", .listString), ("headquarters", .string), ("sources", .listString)]

/-- `IndustryOpportunity` (`models.py` lines 15-19): note `score: float`
carries no range constraint. -/
def IndustryOpportunity : Model :=
  [("domain", .string), ("score", .float), ("rationale", .string), ("sources", .listString)]

/-- `CompetitiveLandscape` (`models.py` lines 22-27). -/
def CompetitiveLandscape : Model :=
  [("competitor", .string), ("product", .string), ("market_share", .float),
   ("note", .string), ("sources", .listString)]

/-- `MarketData` (`models.py` lines 30-34). -/
def MarketData : Model :=
  [("market_size_usd", .float), ("CAGR", .float),
   ("key_drivers", .listString), ("sources", .listString)]

/-- `MarketGap` (`models.py` lines 37-41): note `impact: str` carries no
enum constraint. -/
def MarketGap : Model :=
  [("gap", .string), ("impact", .string), ("evidence", .string), ("source", .listString)]

/-- `Opportunity` (`models.py` lines 44-48). -/
def Opportunity : Model :=
  [("title", .string), ("priority", .string), ("description", .string),
   ("sources", .listString)]

/-- Field errors of validating one record: one entry per missing or
ill-typed declared field; a non-dict input is a single root error. -/
def fieldErrors (model : Model) (v : Value) : List (String × String) :=
  match v with
  | .dict _ =>
      model.filterMap fun ft =>
        match v.lookup ft.1 with
        | none => some (ft.1, "Field required")
        | some x => if ft.2.check x then none else some (ft.1, FieldType.errMsg ft.2)
  | _ => [("__root__", "Input should be a valid dictionary")]

/-- Pydantic `Model.model_validate` followed by `.model_dump()`:
either all declared fields check out and the normalised record keeps
exactly the declared fields in declaration order (extraneous fields
dropped), or a `ValidationError` carrying every field error is raised. -/
def model_validate (model : Model) (v : Value) : Except (List (String × String)) Value :=
  match fieldErrors model v with
  | [] => .ok (.dict (model.map fun ft => (ft.1, v.getD ft.1 .null)))
  | errs => .error errs

/-- Rendering of `str(e)` for a `ValidationError` (approximate text;
the structured details are kept separately). -/
def renderErrors (errs : List (String × String)) : String :=
  String.intercalate "; " (errs.map fun e => e.1 ++ ": " ++ e.2)

/-- The `e.errors()` payload stored under `error_details`. -/
def errorsToValue (errs : List (String × String)) : Value :=
  .list (errs.map fun e => .dict [("loc", .list [.str e.1]), ("msg", .str e.2)])

/-- The `loc` field names occurring in an `error_details` value. -/
def detailLocs : Value → List String
  | .list entries =>
      entries.filterMap fun e =>
        match e.getD "loc" .null with
        | .list [.str f] => some f
        | _ => none
  | _ => []

/-- `BaseValidator.validate` (`validation.py` lines 18-49): the whole
body sits in `try/except`, so every input produces a result dict; a
`ValidationError` yields the `valid=False` dict with `error` and
`error_details`. -/
def BaseValidator.validate (model : Model) (data : Value) : Value :=
  match model_validate model data with
  | .ok d => .dict [("valid", .bool true), ("data", d), ("error", .null)]
  | .error errs =>
      .dict [("valid", .bool false), ("data", .null),
             ("error", .str (renderErrors errs)),
             ("error_details", errorsToValue errs)]

/-- The list comprehension of `ListValidator.validate_output` line 100:
items are validated left to right and the first invalid item raises,
aborting the comprehension, so only that item's errors surface. -/
def validateItems (model : Model) : List Value → Except (List (String × String)) (List Value)
  | [] => .ok []
  | item :: rest =>
      match model_validate model item with
      | .error errs => .error errs
      | .ok d =>
          match validateItems model rest with
          | .ok ds => .ok (d :: ds)
          | .error errs => .error errs

/-- `ListValidator.validate_output` (`validation.py` lines 82-120):
an `isinstance(data, list)` guard first, then the item-by-item
comprehension under `try/except`. -/
def ListValidator.validate_output (item_model : Model) (data : Value) : Value :=
  match data with
  | .list items =>
      match validateItems item_model items with
      | .ok ds => .dict [("valid", .bool true), ("data", .list ds), ("error", .null)]
      | .error errs =>
          .dict [("valid", .bool false), ("data", .null),
                 ("error", .str (renderErrors errs)),
                 ("error_details", errorsToValue errs)]
  | _ => .dict [("valid", .bool false), ("data", .null),
                ("error", .str ("Expected list but got " ++ data.pyTypeName))]

/-- `run_market_data_agent` (`market_data_agent.py` lines 68-113).
The external call chain (`create_market_data_agent`, `agent.run`,
message extraction) is one parameter returning the final message text
or raising; `json.loads` is a parameter returning the decoded value or
failing (`JSONDecodeError`).  The whole body is wrapped in
`except Exception`, which the branches below mirror. -/
def run_market_data_agent (agentRun : String → Except String String)
    (jsonLoads : String → Option Value) (domain : String) : Value :=
  match agentRun domain with
  | .error e =>
      .dict [("success", .bool false), ("error", .str e), ("raw_response", .null)]
  | .ok final_message =>
      match jsonLoads final_message with
      | some market_data =>
          .dict [("success", .bool true), ("data", market_data),
                 ("raw_response", .str final_message)]
      | none =>
          .dict [("success", .bool false),
                 ("error", .str "Invalid JSON response from agent"),
                 ("raw_response", .str final_message)]

/-!
Concrete fixtures: a well-formed output for every stage, used as the
baseline adapter behaviour in the pipeline theorems.  `constAgent v`
is an adapter that returns `{"result": v}` for every input, the first
shape `safe_run`'s normalisation accepts.
-/

def constAgent (v : Value) : Value → Outcome := fun _ => .ok (.dict [("result", v)])

def acmeProfile : Value := .dict
  [("name", .str "Acme"), ("industry", .str "Robotics"),
   ("description", .str "Robot maker"), ("products", .list [.str "AcmeBot"]),
   ("headquarters", .str "Berlin"), ("sources", .list [.str "url1"])]

def oppA : Value := .dict
  [("domain", .str "A"), ("score", .num 0.4), ("rationale", .str "ra"),
   ("sources", .list [.str "u1"])]

def oppB : Value := .dict
  [("domain", .str "B"), ("score", .num 0.9), ("rationale", .str "rb"),
   ("sources", .list [.str "u1"])]

def oppC : Value := .dict
  [("domain", .str "C"), ("score", .num 0.9), ("rationale", .str "rc"),
   ("sources", .list [.str "u1"])]

/-- Baseline industry-analysis result: the ordered opportunity list of the
spec's determinism example, under the `domains` key that
`run_linear_pipeline` reads. -/
def idaDomainsABC : Value := .dict [("domains", .list [oppA, oppB, oppC])]

def marketDataOk : Value := .dict
  [("market_size_usd", .num 1000000000), ("CAGR", .num 0.12),
   ("key_drivers", .list [.str "automation"]), ("sources", .list [.str "url1"])]

def competitorOk : Value := .dict
  [("competitor", .str "Rival"), ("product", .str "RivalBot"),
   ("market_share", .num 0.3), ("note", .str "n"), ("sources", .list [.str "u2"])]

/-- A MarketGap record that satisfies the `MarketGap` model. -/
def gapHigh : Value := .dict
  [("gap", .str "service gap"), ("impact", .str "high"),
   ("evidence", .str "ev"), ("source", .list [.str "u3"])]

/-- A MarketGap record whose impact is outside the spec's high/medium/low enum. -/
def criticalGap : Value := .dict
  [("gap", .str "service gap"), ("impact", .str "critical"),
   ("evidence", .str "ev"), ("source", .list [.str "u3"])]

/-- A record missing the `impact` field, hence failing the `MarketGap` model. -/
def badGap : Value := .dict
  [("gap", .str "g0"), ("evidence", .str "e0"), ("source", .list [])]

/-- A record missing the `gap` field, hence failing the `MarketGap` model. -/
def badGapTwo : Value := .dict
  [("impact", .str "high"), ("evidence", .str "e1"), ("source", .list [])]

def opptyOk : Value := .dict
  [("title", .str "Expand"), ("priority", .str "high"),
   ("description", .str "d"), ("sources", .list [.str "u4"])]

def reportOk : Value := .dict
  [("data", .dict
     [("pdf_content", .str "PDF"), ("report_title", .str "Acme Research"),
      ("generated_at", .str "2025-01-01T00:00:00Z"), ("placeholder", .bool false)])]

def baselineAgents : Agents where
  company_research := constAgent acmeProfile
  industry_analysis := constAgent idaDomainsABC
  market_data := constAgent marketDataOk
  competitive_landscape := constAgent (.list [competitorOk])
  market_gap := constAgent (.list [gapHigh])
  opportunity := constAgent (.list [opptyOk])
  report_synthesis := fun _ => .ok reportOk

/-- The failed `StageResult` shape `run_market_data_agent` produces when
the underlying call raises (e.g. a timeout): `raw_response` present and
`None`. -/
def timeoutResult : Value := .dict
  [("success", .bool false), ("error", .str "timeout"), ("raw_response", .null)]

/-!
Claim theorems.  Each counterexample is a closed evaluation of the
embedded source at a concrete input; each amended theorem states the
behaviour the source actually has.
-/

/-- C1 counterexample: the orchestrator has no validation gate.  In a
run whose GapAnalysis stage outputs a list failing the `MarketGap`
contract (an item with no `impact` field), that raw output is
nevertheless passed verbatim as the input of the downstream
OpportunityAnalysis stage, and the run does not halt, refuting the
claim that validated output alone crosses stage boundaries. -/
theorem invalid_gap_reaches_opportunity_stage :
    (run_linear_pipeline { baselineAgents with
        market_gap := constAgent (.list [badGap]) } "Acme" none).invoked[5]?
      = some ("OpportunityAnalysis", .list [badGap])
    ∧ (ListValidator.validate_output MarketGap (.list [badGap])).getD "valid" .null
      = .bool false
    ∧ (run_linear_pipeline { baselineAgents with
        market_gap := constAgent (.list [badGap]) } "Acme" none).invoked[6]?
      = some ("ReportSynthesis", .dict
          [("company_research_data", acmeProfile),
           ("domain_research_data", idaDomainsABC),
           ("market_research_data", marketDataOk),
           ("competitive_research_data", .list [competitorOk]),
           ("gap_analysis_data", .list [badGap]),
           ("opportunity_research_data", .list [opptyOk])]) :=
  ⟨rfl, rfl, rfl⟩

/-- C1 amended: `run_linear_pipeline` performs no schema validation
between stages.  Whatever non-`None` value `safe_run` extracts from the
GapAnalysis adapter — valid or not against the `MarketGap` contract —
is forwarded verbatim as the OpportunityAnalysis stage's input; the run
halts only on a `None` result, never on a validation failure. -/
theorem gap_output_forwarded_unvalidated (g : Value) (h : g.isNull = false) :
    (run_linear_pipeline { baselineAgents with
        market_gap := constAgent g } "Acme" none).invoked[5]?
      = some ("OpportunityAnalysis", g) := by
  cases g with
  | null => simp [Value.isNull] at h
  | bool b => rfl
  | num q => rfl
  | str s => rfl
  | list xs => rfl
  | dict kvs => rfl

/-- C1 witness: the amended forwarding theorem applied to the concrete
schema-invalid gap list. -/
theorem gap_output_forwarded_unvalidated_witness :
    (Value.list [badGap]).isNull = false
    ∧ (run_linear_pipeline { baselineAgents with
        market_gap := constAgent (.list [badGap]) } "Acme" none).invoked[5]?
      = some ("OpportunityAnalysis", .list [badGap]) :=
  ⟨rfl, gap_output_forwarded_unvalidated (.list [badGap]) rfl⟩

/-- C2 counterexample: with no override, `run_linear_pipeline` selects
`domains[0]`, not the highest-scoring opportunity.  On the spec's own
example list the selection is the first entry (domain `A`, score 0.4),
not `B`: the MarketData stage is invoked with the first record, and
the same holds when the list carries bare domain strings. -/
theorem domain_selection_first_not_highest :
    select_domain none (.list [oppA, oppB, oppC]) = .ok oppA
    ∧ (run_linear_pipeline baselineAgents "Acme" none).invoked[2]?
      = some ("MarketData", .dict [("domain", oppA)])
    ∧ oppA.getD "domain" .null = .str "A"
    ∧ select_domain none (.list [.str "A", .str "B", .str "C"]) = .ok (.str "A")
    ∧ "A" ≠ "B" :=
  ⟨rfl, rfl, rfl, rfl, by decide⟩

/-- C2 amended: a non-empty caller override is used verbatim (an empty
string is discarded by Python's `or`); with no override the selection is
the first element of the `domains` list, regardless of score. -/
theorem domain_selection_override_or_head :
    (∀ (s : String) (ds : Value), s.isEmpty = false →
        select_domain (some s) ds = .ok (.str s))
    ∧ (∀ (d : Value) (ds : List Value), select_domain none (.list (d :: ds)) = .ok d) := by
  constructor
  · intro s ds h
    simp [select_domain, h]
  · intro d ds
    rfl

/-- C2 witness: the amended selection rule at a concrete override and a
concrete list. -/
theorem domain_selection_override_or_head_witness :
    "fintech".isEmpty = false
    ∧ select_domain (some "fintech") (.list [oppA, oppB, oppC]) = .ok (.str "fintech")
    ∧ select_domain none (.list [oppA, oppB, oppC]) = .ok oppA :=
  ⟨rfl, domain_selection_override_or_head.1 "fintech" (.list [oppA, oppB, oppC]) rfl,
   domain_selection_override_or_head.2 oppA [oppB, oppC]⟩

/-- C3 counterexample: with an empty `domains` list the run does fail
with the error string `"No domains found."` and MarketData is never
invoked, but the failure result is exactly
`{"success": False, "error": "No domains found."}`: it carries no
failed-stage field and does not name IndustryAnalysis, refuting the
claim that the failure identifies the failed stage. -/
theorem empty_domains_result_lacks_stage_field :
    (run_linear_pipeline { baselineAgents with
        industry_analysis := constAgent (.dict [("domains", .list [])]) } "Acme" none).result
      = .ok (mkFail "No domains found.")
    ∧ (mkFail "No domains found.").hasKey "failedStage" = false
    ∧ (run_linear_pipeline { baselineAgents with
        industry_analysis := constAgent (.dict [("domains", .list [])]) } "Acme" none).invoked
      = [("CompanyResearch", .dict [("company", .str "Acme")]),
         ("IndustryAnalysis", acmeProfile)] :=
  ⟨rfl, rfl, rfl⟩

/-- C3 amended: whatever the downstream adapters would do, an empty
opportunity list makes the run return
`{"success": False, "error": "No domains found."}` — a fixed error
string with no failed-stage field — and no stage after IndustryAnalysis
is invoked. -/
theorem empty_domains_halts_without_stage_field
    (mda cla ga oa rs : Value → Outcome) :
    (run_linear_pipeline
      ⟨constAgent acmeProfile, constAgent (.dict [("domains", .list [])]),
       mda, cla, ga, oa, rs⟩ "Acme" none).result
      = .ok (mkFail "No domains found.")
    ∧ (run_linear_pipeline
      ⟨constAgent acmeProfile, constAgent (.dict [("domains", .list [])]),
       mda, cla, ga, oa, rs⟩ "Acme" none).invoked
      = [("CompanyResearch", .dict [("company", .str "Acme")]),
         ("IndustryAnalysis", acmeProfile)] :=
  ⟨rfl, rfl⟩

/-- C4 counterexample: when the MarketData adapter returns the failed
`StageResult` `{"success": False, "error": "timeout", "raw_response": None}`,
the run does halt before CompetitiveLandscape, but the returned failure
is exactly `{"success": False, "error": "Market data collection failed."}`:
it has no failed-stage field, so no field equals `"MarketData"`,
refuting the claim. -/
theorem market_data_failure_lacks_failed_stage :
    (run_linear_pipeline { baselineAgents with
        market_data := fun _ => .ok timeoutResult } "Acme" none).result
      = .ok (mkFail "Market data collection failed.")
    ∧ (mkFail "Market data collection failed.").hasKey "failedStage" = false
    ∧ (run_linear_pipeline { baselineAgents with
        market_data := fun _ => .ok timeoutResult } "Acme" none).invoked
      = [("CompanyResearch", .dict [("company", .str "Acme")]),
         ("IndustryAnalysis", acmeProfile),
         ("MarketData", .dict [("domain", oppA)])] :=
  ⟨rfl, rfl, rfl⟩

/-- C4 amended: for every error message and whatever the later adapters
would do, a MarketData failure of the shape the market-data agent
actually produces on an exception (`raw_response` present and `None`)
halts the run before CompetitiveLandscape with the fixed failure dict
`{"success": False, "error": "Market data collection failed."}`; the
stage is identified only by that fixed message, not by a field. -/
theorem market_data_failure_halts_with_fixed_error
    (err : String) (cla ga oa rs : Value → Outcome) :
    (run_linear_pipeline
      ⟨constAgent acmeProfile, constAgent idaDomainsABC,
       fun _ => .ok (.dict [("success", .bool false), ("error", .str err),
                            ("raw_response", .null)]),
       cla, ga, oa, rs⟩ "Acme" none).result
      = .ok (mkFail "Market data collection failed.")
    ∧ (run_linear_pipeline
      ⟨constAgent acmeProfile, constAgent idaDomainsABC,
       fun _ => .ok (.dict [("success", .bool false), ("error", .str err),
                            ("raw_response", .null)]),
       cla, ga, oa, rs⟩ "Acme" none).invoked
      = [("CompanyResearch", .dict [("company", .str "Acme")]),
         ("IndustryAnalysis", acmeProfile),
         ("MarketData", .dict [("domain", oppA)])] :=
  ⟨rfl, rfl⟩

/-- C5 counterexample: `IndustryOpportunity.score` is declared as a bare
`float`, so an out-of-range score is accepted: validating a record with
score 1.5 — strictly above the claimed [0,1] range — returns
`valid=True`, refuting the claim that validation fails and names the
score field. -/
theorem score_out_of_range_accepted :
    (BaseValidator.validate IndustryOpportunity
      (.dict [("domain", .str "A"), ("score", .num 1.5), ("rationale", .str "r"),
              ("sources", .list [.str "u"])])).getD "valid" .null = .bool true
    ∧ (1 : ℚ) < 1.5 :=
  ⟨rfl, by norm_num⟩

/-- C5 amended: the `IndustryOpportunity` model imposes no range
constraint on `score`: a record whose score is any rational whatsoever
(and whose other fields are well-typed) validates successfully. -/
theorem score_unconstrained_accepts_any (q : ℚ) (d r u : String) :
    (BaseValidator.validate IndustryOpportunity
      (.dict [("domain", .str d), ("score", .num q), ("rationale", .str r),
              ("sources", .list [.str u])])).getD "valid" .null = .bool true := rfl

/-- C6 counterexample: `MarketGap.impact` is a bare `str`, so the value
`"critical"` passes both the single-record and the list validator; and
since the pipeline has no validation gate, a run whose GapAnalysis
output is `[criticalGap]` proceeds to invoke OpportunityAnalysis with
it instead of halting, refuting both halves of the claim. -/
theorem critical_impact_accepted_and_forwarded :
    (BaseValidator.validate MarketGap criticalGap).getD "valid" .null = .bool true
    ∧ (ListValidator.validate_output MarketGap (.list [criticalGap])).getD "valid" .null
      = .bool true
    ∧ (run_linear_pipeline { baselineAgents with
        market_gap := constAgent (.list [criticalGap]) } "Acme" none).invoked[5]?
      = some ("OpportunityAnalysis", .list [criticalGap]) :=
  ⟨rfl, rfl, rfl⟩

/-- C6 amended: any string at all is accepted as a `MarketGap` impact
level, and a run whose GapAnalysis stage yields the `"critical"`-impact
gap list reaches OpportunityAnalysis with that list as input. -/
theorem impact_unconstrained_and_pipeline_proceeds (s g e u : String) :
    (BaseValidator.validate MarketGap
      (.dict [("gap", .str g), ("impact", .str s), ("evidence", .str e),
              ("source", .list [.str u])])).getD "valid" .null = .bool true
    ∧ (run_linear_pipeline { baselineAgents with
        market_gap := constAgent (.list [criticalGap]) } "Acme" none).invoked[5]?
      = some ("OpportunityAnalysis", .list [criticalGap]) :=
  ⟨rfl, rfl⟩

/-- The `StageResult` invariant of the data model: exactly one of
(data present with success true) or (error present with success false). -/
def stageResultInvariant (r : Value) : Prop :=
  (r.getD "success" .null = .bool true
    ∧ r.hasKey "data" = true ∧ r.hasKey "error" = false)
  ∨ (r.getD "success" .null = .bool false
    ∧ r.hasKey "error" = true ∧ r.hasKey "data" = false)

/-- C7: the market-data stage adapter is total — whatever the backing
agent call and the JSON decoder do (return, fail, or raise), the
adapter returns a dict satisfying the `StageResult` invariant — and
`safe_run` likewise returns a `result`-keyed dict for every agent
outcome, so no stage call raises to the orchestrator. -/
theorem market_data_agent_total_stage_result
    (agentRun : String → Except String String) (jsonLoads : String → Option Value)
    (domain : String) :
    stageResultInvariant (run_market_data_agent agentRun jsonLoads domain)
    ∧ (∀ (agent_fn : Value → Outcome) (input : Value),
        (safe_run agent_fn input).hasKey "result" = true) := by
  constructor
  · rcases ha : agentRun domain with e | m
    · simp only [run_market_data_agent, ha, stageResultInvariant]
      exact Or.inr ⟨rfl, rfl, rfl⟩
    · rcases hj : jsonLoads m with _ | d
      · simp only [run_market_data_agent, ha, hj, stageResultInvariant]
        exact Or.inr ⟨rfl, rfl, rfl⟩
      · simp only [run_market_data_agent, ha, hj, stageResultInvariant]
        exact Or.inl ⟨rfl, rfl, rfl⟩
  · intro agent_fn input
    rcases hf : agent_fn input with raw | e
    · cases raw with
      | null =>
        simp only [safe_run, hf]
        rfl
      | bool b =>
        simp only [safe_run, hf]
        rfl
      | num q =>
        simp only [safe_run, hf]
        rfl
      | str s =>
        simp only [safe_run, hf]
        rfl
      | list xs =>
        simp only [safe_run, hf]
        rfl
      | dict kvs =>
        simp only [safe_run, hf]
        split
        · rfl
        · split
          · rfl
          · split
            · rfl
            · rfl
    · simp only [safe_run, hf]
      rfl

/-- C8 counterexample: a fully successful run returns exactly
`{"success": True, "pdf_content", "report_title", "generated_at",
"placeholder"}`; no trail of intermediate entities (company profile,
opportunity list, market data, competitive entries, gaps,
opportunities) is included, refuting the claim. -/
theorem success_result_has_no_trail :
    (run_linear_pipeline baselineAgents "Acme" none).result
      = .ok (.dict [("success", .bool true), ("pdf_content", .str "PDF"),
                    ("report_title", .str "Acme Research"),
                    ("generated_at", .str "2025-01-01T00:00:00Z"),
                    ("placeholder", .bool false)])
    ∧ (Value.dict [("success", .bool true), ("pdf_content", .str "PDF"),
                   ("report_title", .str "Acme Research"),
                   ("generated_at", .str "2025-01-01T00:00:00Z"),
                   ("placeholder", .bool false)]).hasKey "trail" = false
    ∧ (Value.dict [("success", .bool true), ("pdf_content", .str "PDF"),
                   ("report_title", .str "Acme Research"),
                   ("generated_at", .str "2025-01-01T00:00:00Z"),
                   ("placeholder", .bool false)]).hasKey "company_profile" = false
    ∧ (Value.dict [("success", .bool true), ("pdf_content", .str "PDF"),
                   ("report_title", .str "Acme Research"),
                   ("generated_at", .str "2025-01-01T00:00:00Z"),
                   ("placeholder", .bool false)]).hasKey "opportunities" = false :=
  ⟨rfl, rfl, rfl, rfl⟩

/-- C8 amended: a successful run returns only the success flag and the
four report fields extracted from the synthesis output (`placeholder`
defaulting to `True` when absent); none of the intermediate entities
appear in the result. -/
theorem success_result_only_report_fields (pdf title gen : Value) :
    (run_linear_pipeline { baselineAgents with
        report_synthesis := fun _ => .ok (.dict
          [("data", .dict [("pdf_content", pdf), ("report_title", title),
                           ("generated_at", gen)])]) } "Acme" none).result
      = .ok (.dict [("success", .bool true), ("pdf_content", pdf),
                    ("report_title", title), ("generated_at", gen),
                    ("placeholder", .bool true)]) := rfl

/-- C9 counterexample: validating a list whose first element lacks
`impact` and whose second lacks `gap` reports only the first element's
violation — the enumerated `loc` fields are exactly `["impact"]`, and
the second element's violated `gap` field is absent, even though that
element is itself invalid — refuting the claim that every violated
field is enumerated. -/
theorem list_validator_stops_at_first_invalid :
    detailLocs ((ListValidator.validate_output MarketGap
        (.list [badGap, badGapTwo])).getD "error_details" .null) = ["impact"]
    ∧ (["impact"].contains "gap") = false
    ∧ (BaseValidator.validate MarketGap badGapTwo).getD "valid" .null = .bool false :=
  ⟨rfl, by decide, rfl⟩

/-- C9 amended: within one record the validator does enumerate every
violated field (a record missing both `gap` and `impact` reports both),
but the list validator aborts at the first invalid element: whatever
follows it, the reported details are exactly that element's errors. -/
theorem base_enumerates_all_list_stops_first :
    detailLocs ((BaseValidator.validate MarketGap
        (.dict [("evidence", .str "e"), ("source", .list [])])).getD
        "error_details" .null) = ["gap", "impact"]
    ∧ (∀ rest : List Value,
        (ListValidator.validate_output MarketGap (.list (badGap :: rest))).getD
          "error_details" .null
        = errorsToValue [("impact", "Field required")]) := by
  refine ⟨rfl, ?_⟩
  intro rest
  rfl

/-- Well-formedness of a validator result dict: a `valid` flag that is a
boolean, data and a null error on success, a string error on failure. -/
def validatorResultWellFormed (r : Value) : Prop :=
  r.hasKey "valid" = true
  ∧ (r.getD "valid" .null = .bool true ∨ r.getD "valid" .null = .bool false)
  ∧ (r.getD "valid" .null = .bool true →
      r.hasKey "data" = true ∧ r.getD "error" .null = .null)
  ∧ (r.getD "valid" .null = .bool false → ∃ s, r.getD "error" .null = .str s)

/-- Injectivity of the boolean `Value` constructor (helper). -/
theorem bool_value_inj {b c : Bool} (h : Value.bool b = Value.bool c) : b = c := by
  injection h

/-- A `valid=True` result dict is well-formed (helper). -/
theorem wf_true (d : Value) :
    validatorResultWellFormed
      (.dict [("valid", .bool true), ("data", d), ("error", .null)]) :=
  ⟨rfl, Or.inl rfl, fun _ => ⟨rfl, rfl⟩,
   fun hc => absurd (bool_value_inj hc) (by decide)⟩

/-- A `valid=False` result dict with error details is well-formed (helper). -/
theorem wf_false_details (s : String) (det : Value) :
    validatorResultWellFormed
      (.dict [("valid", .bool false), ("data", .null), ("error", .str s),
              ("error_details", det)]) :=
  ⟨rfl, Or.inr rfl, fun hc => absurd (bool_value_inj hc) (by decide),
   fun _ => ⟨s, rfl⟩⟩

/-- A plain `valid=False` result dict is well-formed (helper). -/
theorem wf_false_plain (s : String) :
    validatorResultWellFormed
      (.dict [("valid", .bool false), ("data", .null), ("error", .str s)]) :=
  ⟨rfl, Or.inr rfl, fun hc => absurd (bool_value_inj hc) (by decide),
   fun _ => ⟨s, rfl⟩⟩

/-- C10: both validator entry points are total and well-formed on every
input — `BaseValidator.validate` and `ListValidator.validate_output`
always return a result dict with a boolean `valid` flag, data on
success and a string error on failure — and a non-list argument to the
list validator yields the invalid result with the
`"Expected list but got ..."` message instead of raising. -/
theorem validators_total (model : Model) (v : Value) :
    validatorResultWellFormed (BaseValidator.validate model v)
    ∧ validatorResultWellFormed (ListValidator.validate_output model v)
    ∧ (v.isList = false →
        ListValidator.validate_output model v
          = .dict [("valid", .bool false), ("data", .null),
                   ("error", .str ("Expected list but got " ++ v.pyTypeName))]) := by
  refine ⟨?_, ?_, ?_⟩
  · rcases h : model_validate model v with errs | d
    · simp only [BaseValidator.validate, h]
      exact wf_false_details (renderErrors errs) (errorsToValue errs)
    · simp only [BaseValidator.validate, h]
      exact wf_true d
  · cases v with
    | list items =>
      rcases h : validateItems model items with errs | ds
      · simp only [ListValidator.validate_output, h]
        exact wf_false_details (renderErrors errs) (errorsToValue errs)
      · simp only [ListValidator.validate_output, h]
        exact wf_true (.list ds)
    | null => exact wf_false_plain _
    | bool b => exact wf_false_plain _
    | num q => exact wf_false_plain _
    | str s => exact wf_false_plain _
    | dict kvs => exact wf_false_plain _
  · intro h
    cases v with
    | list items => simp [Value.isList] at h
    | null => rfl
    | bool b => rfl
    | num q => rfl
    | str s => rfl
    | dict kvs => rfl

/-- C10 witness: the totality theorem applied to a concrete non-list
input. -/
theorem validators_total_witness :
    (Value.str "oops").isList = false
    ∧ ListValidator.validate_output MarketGap (.str "oops")
      = .dict [("valid", .bool false), ("data", .null),
               ("error", .str "Expected list but got str")] :=
  ⟨rfl, (validators_total MarketGap (.str "oops")).2.2 rfl⟩
